import Mathlib

/-!
Shallow embedding of the moderation-sanction routes of the `min-api`
repository (Express + Supabase).  The route handlers are modelled as pure
functions over explicit store states:

* `moderationPunish`, `modRemove`, `historyQuery` embed
  `src/routes/moderation.js` (`POST /:guildId/punish`,
  `DELETE /:guildId/punishment/:logId`, `GET /:guildId/user/:userId/history`),
  acting on the `moderation_logs` table (`ModLog`).
* `gwTokenPunish`, `listActive`, `gwRemove` embed the token-authenticated
  moderation variant inside `src/routes/giveaways.js` (`POST /punish`,
  `GET /active`, `POST /remove/:logId`), acting on its `moderation_logs`
  shape (`GLog`).
* `gwApiPunish`, `unpunishHandler` embed the api-key variant inside
  `src/routes/giveaways.js` (`POST /punish`, `POST /unpunish`), acting on
  the `mod_logs` (`MLogRec`) and `punishments` (`PunishmentRow`) tables.

Discord (the Enforcement Gateway) is modelled by boolean existence flags for
guild/member lookups and an `Option String` outcome for the single platform
call a handler makes: `none` means the awaited SDK call returned normally,
`some e` means it threw with message `e`.  The platform calls a handler
attempts are recorded as a list of `EnfCall`s.  Timestamps are naturals
(milliseconds since epoch, as `Date.now()`); database-side arithmetic on
them is done in `Int` where the source can produce negative values.
JavaScript truthiness of request fields is modelled explicitly (`present`,
`orElse`, and zero/absent duration checks).
-/

namespace MinApi

/-- An HTTP response: status code plus the `success` flag carried by the
JSON body when the handler sets one (`none` for plain error bodies). -/
structure Resp where
  status : Nat
  succFlag : Option Bool
deriving Repr, DecidableEq

/-- A platform (Discord SDK) call attempted by a handler. -/
inductive EnfCall where
  /-- `member.timeout(ms, reason)` -/
  | timeoutCall (ms : Int) (reason : String)
  /-- `member.timeout(null, reason?)` (clears a timeout) -/
  | clearTimeoutCall
  /-- `member.kick(reason)` -/
  | kickCall (reason : String)
  /-- `guild.members.ban(userId, ...)` / `member.ban(...)` -/
  | banCall (userId : String) (reason : String)
  /-- `guild.members.unban(userId, ...)` -/
  | unbanCall (userId : String)
deriving Repr, DecidableEq

/-- JavaScript truthiness of an optional string request field:
`undefined`, `null` and `""` are falsy. -/
def present : Option String → Bool
  | none => false
  | some s => s != ""

/-- JavaScript `x || d` on an optional string (empty string is falsy). -/
def orElse (o : Option String) (d : String) : String :=
  match o with
  | none => d
  | some s => if s = "" then d else s

/-- JavaScript truthiness of an optional numeric field (`0` is falsy). -/
def truthyInt : Option Int → Bool
  | none => false
  | some d => d != 0

/-- `String.prototype.toLowerCase()` (character-wise lowering). -/
def lowerStr (s : String) : String :=
  String.mk (s.data.map Char.toLower)

/-- `String.prototype.replace("un", "")`: removes the first occurrence of
the substring `"un"`, character-list version. -/
def replaceUnChars : List Char → List Char
  | [] => []
  | [c] => [c]
  | c1 :: c2 :: rest =>
    if c1 = 'u' ∧ c2 = 'n' then rest
    else c1 :: replaceUnChars (c2 :: rest)

/-- `action.replace("un", "")` as used by the `/unpunish` handler. -/
def replaceUn (s : String) : String :=
  String.mk (replaceUnChars s.data)

/-- `duration ? duration * 60 * 1000 : 10 * 60 * 1000` — the millisecond
timeout length `moderation.js` passes to `member.timeout`. -/
def durMsOf (dur : Option Int) : Int :=
  match dur with
  | some d => if d ≠ 0 then d * 60 * 1000 else 600000
  | none => 600000

/-! ## moderation.js: the `moderation_logs` table and its handlers -/

/-- A row of the `moderation_logs` table as written by
`src/routes/moderation.js` (columns of its two `insert` calls, plus the
db-assigned `id`/`created_at` and the `related_log_id` column the
giveaways variant also stores in this table). -/
structure ModLog where
  id : Nat
  guild_id : String
  user_id : String
  moderator_id : String
  action_type : String
  reason : String
  duration : Option Int
  success : Bool
  error_message : Option String
  created_at : Nat
deriving Repr, DecidableEq

/-- The `switch (action_type)` block of `POST /:guildId/punish` wrapped in
its `try/catch`: returns the resulting `success` flag, the captured
`error_message`, and the platform calls attempted.  `gw = some e` means the
awaited Discord call threw with message `e`. -/
def execPunishAction (act : String) (memberExists : Bool) (uid reason : String)
    (durMs : Int) (gw : Option String) : Bool × Option String × List EnfCall :=
  if act = "warn" then (true, none, [])
  else if act = "mute" ∨ act = "timeout" then
    if memberExists then
      match gw with
      | none => (true, none, [.timeoutCall durMs reason])
      | some e => (false, some e, [.timeoutCall durMs reason])
    else (false, none, [])
  else if act = "kick" then
    if memberExists then
      match gw with
      | none => (true, none, [.kickCall reason])
      | some e => (false, some e, [.kickCall reason])
    else (false, none, [])
  else if act = "ban" then
    match gw with
    | none => (true, none, [.banCall uid reason])
    | some e => (false, some e, [.banCall uid reason])
  else (false, none, [])

/-- The `moderation_logs` row `POST /:guildId/punish` inserts. -/
def punishRecord (gId modId uid act reason : String) (dur : Option Int)
    (memberExists : Bool) (gw : Option String) (nextId now : Nat) : ModLog :=
  let out := execPunishAction act memberExists uid reason (durMsOf dur) gw
  { id := nextId, guild_id := gId, user_id := uid, moderator_id := modId,
    action_type := act, reason := reason, duration := dur,
    success := out.1, error_message := out.2.1, created_at := now }

/-- `POST /:guildId/punish` from `src/routes/moderation.js`: validation,
guild/member lookup, best-effort Discord action, then an unconditional
insert of the log row and a `201` response whose `success` flag is the
enforcement outcome. -/
def moderationPunish (gId modId : String)
    (user_id action_type reason : Option String) (dur : Option Int)
    (guildExists memberExists : Bool) (gw : Option String)
    (store : List ModLog) (nextId now : Nat) :
    Resp × List ModLog × List EnfCall :=
  if ¬ (present user_id && present action_type && present reason) then
    (⟨400, none⟩, store, [])
  else if ¬ (["warn", "mute", "kick", "ban", "timeout"].contains (action_type.getD "")) then
    (⟨400, none⟩, store, [])
  else if ¬ guildExists then
    (⟨404, none⟩, store, [])
  else if ¬ memberExists ∧ action_type.getD "" ≠ "ban" then
    (⟨404, none⟩, store, [])
  else
    let act := action_type.getD ""
    let uid := user_id.getD ""
    let rsn := reason.getD ""
    let out := execPunishAction act memberExists uid rsn (durMsOf dur) gw
    (⟨201, some out.1⟩,
     store ++ [punishRecord gId modId uid act rsn dur memberExists gw nextId now],
     out.2.2)

/-- The removal row `DELETE /:guildId/punishment/:logId` inserts (its
insert carries no `duration` and no `related_log_id`). -/
def modRemovalRecord (gId modId : String) (origUser origAction : String)
    (succ : Bool) (errMsg : Option String) (nextId now : Nat) : ModLog :=
  { id := nextId, guild_id := gId, user_id := origUser, moderator_id := modId,
    action_type := "un" ++ origAction, reason := "Punishment removed via dashboard",
    duration := none, success := succ, error_message := errMsg, created_at := now }

/-- `DELETE /:guildId/punishment/:logId` from `src/routes/moderation.js`:
loads the original row, attempts the Discord removal (warn/kick fall into
the `default` branch that just sets `success = true`), and inserts an
`un<action>` row; the original row is never updated. -/
def modRemove (gId modId : String) (logId : Nat)
    (guildExists memberExists : Bool) (gw : Option String)
    (store : List ModLog) (nextId now : Nat) :
    Resp × List ModLog × List EnfCall :=
  match store.find? (fun r => r.id == logId && r.guild_id == gId) with
  | none => (⟨404, none⟩, store, [])
  | some log =>
    if ¬ guildExists then (⟨404, none⟩, store, [])
    else
      let out : Bool × Option String × List EnfCall :=
        if log.action_type = "ban" then
          match gw with
          | none => (true, none, [.unbanCall log.user_id])
          | some e => (false, some e, [.unbanCall log.user_id])
        else if log.action_type = "mute" ∨ log.action_type = "timeout" then
          if memberExists then
            match gw with
            | none => (true, none, [.clearTimeoutCall])
            | some e => (false, some e, [.clearTimeoutCall])
          else (false, none, [])
        else (true, none, [])
      (⟨200, some out.1⟩,
       store ++ [modRemovalRecord gId modId log.user_id log.action_type out.1 out.2.1 nextId now],
       out.2.2)

/-! ## Ordering by `created_at` descending (`.order("created_at", { ascending: false })`) -/

/-- Insert into a list kept in descending key order. -/
def insertDescBy (key : α → Nat) (x : α) : List α → List α
  | [] => [x]
  | y :: ys => if key x ≤ key y then y :: insertDescBy key x ys else x :: y :: ys

/-- Sort a list into descending key order (insertion sort). -/
def sortDescBy (key : α → Nat) : List α → List α
  | [] => []
  | x :: xs => insertDescBy key x (sortDescBy key xs)

/-- The list is in descending key order. -/
def isSortedDescBy (key : α → Nat) : List α → Bool
  | [] => true
  | [_] => true
  | x :: y :: ys => decide (key y ≤ key x) && isSortedDescBy key (y :: ys)

/-- `GET /:guildId/user/:userId/history`: all `moderation_logs` rows for
the pair, ordered by `created_at` descending, no status filtering. -/
def historyQuery (store : List ModLog) (g u : String) : List ModLog :=
  sortDescBy ModLog.created_at
    (store.filter (fun r => r.guild_id == g && r.user_id == u))

/-! ## giveaways.js, token-authenticated variant: `moderation_logs` shape -/

/-- A row of the `moderation_logs` table as used by the token-authenticated
moderation variant inside `src/routes/giveaways.js` (columns `action`,
`executed`, `related_log_id`; `created_at` in milliseconds since epoch as
read back by `new Date(created_at).getTime()`). -/
structure GLog where
  id : Nat
  guild_id : String
  user_id : String
  moderator_id : String
  action : String
  reason : String
  duration : Option Int
  executed : Bool
  related_log_id : Option Nat
  created_at : Nat
deriving Repr, DecidableEq

/-- `POST /punish` (token variant, `src/routes/giveaways.js`): validates,
calls `discordAPI.punishMember`, and — only if that reported success —
inserts the log row.  `resultSuccess`/`resultError` are the fields of the
`punishMember` result. -/
def gwTokenPunish (modId : String)
    (guild_id user_id action reason : Option String) (dur : Option Int)
    (resultSuccess : Bool) (_resultError : String)
    (store : List GLog) (nextId now : Nat) : Resp × List GLog :=
  if ¬ (present guild_id && present user_id && present action && present reason) then
    (⟨400, none⟩, store)
  else if ¬ (["warn", "timeout", "kick", "ban"].contains (action.getD "")) then
    (⟨400, none⟩, store)
  else if ¬ resultSuccess then
    (⟨400, none⟩, store)
  else
    let newLog : GLog :=
      { id := nextId, guild_id := guild_id.getD "", user_id := user_id.getD "",
        moderator_id := modId, action := action.getD "", reason := reason.getD "",
        duration := (match dur with
          | some d => if d ≠ 0 then some d else none
          | none => none),
        executed := true, related_log_id := none, created_at := now }
    (⟨200, some true⟩, store ++ [newLog])

/-- The base query of `GET /active`:
`.in('action', ['timeout','ban']).eq('executed', true)` plus the optional
`guild_id` filter. -/
def activeBase (guildFilter : Option String) (p : GLog) : Bool :=
  (p.action == "timeout" || p.action == "ban") && p.executed &&
    (match guildFilter with
     | some g => p.guild_id == g
     | none => true)

/-- The in-memory expiry filter of `GET /active`: a `timeout` with a truthy
`duration` is kept iff `created_at + duration * 1000 > Date.now()`;
everything else is kept. -/
def notExpired (now : Nat) (p : GLog) : Bool :=
  match p.duration with
  | some d =>
    if p.action == "timeout" && d != 0 then
      decide ((p.created_at : Int) + d * 1000 > (now : Int))
    else true
  | none => true

/-- `GET /active` (`src/routes/giveaways.js`): base query ordered by
`created_at` descending, then the expiry filter. -/
def listActive (store : List GLog) (guildFilter : Option String) (now : Nat) :
    List GLog :=
  (sortDescBy GLog.created_at (store.filter (activeBase guildFilter))).filter
    (notExpired now)

/-- The removal row `POST /remove/:logId` inserts: a new `unban` log whose
`related_log_id` points at the original. -/
def gwRemovalRecord (modId : String) (orig : GLog) (logId : Nat)
    (reason : Option String) (nextId now : Nat) : GLog :=
  { id := nextId, guild_id := orig.guild_id, user_id := orig.user_id,
    moderator_id := modId, action := "unban",
    reason := orElse reason "Ban removed via dashboard",
    duration := none, executed := true, related_log_id := some logId,
    created_at := now }

/-- `POST /remove/:logId` (`src/routes/giveaways.js`): loads the original
row (no guild filter on the query), rejects anything that is not a `ban`
with `400`, best-effort unban (Discord errors are swallowed and the guild
lookup may return nothing, skipping the call), then inserts the removal
row.  The original row is never updated. -/
def gwRemove (modId : String) (logId : Nat) (reason : Option String)
    (guildExists : Bool) (store : List GLog) (nextId now : Nat) :
    Resp × List GLog × List EnfCall :=
  match store.find? (fun r => r.id == logId) with
  | none => (⟨404, none⟩, store, [])
  | some orig =>
    if orig.action ≠ "ban" then (⟨400, none⟩, store, [])
    else
      let calls := if guildExists then [EnfCall.unbanCall orig.user_id] else []
      (⟨200, some true⟩,
       store ++ [gwRemovalRecord modId orig logId reason nextId now],
       calls)

/-! ## giveaways.js, api-key variant: `mod_logs` and `punishments` tables -/

/-- A row of the `mod_logs` table as inserted by the api-key `POST /punish`
variant (`details` is the JSON object `{reason, duration?}`). -/
structure MLogRec where
  guild_id : String
  user_id : String
  moderator_id : String
  action : String
  details_reason : String
  details_duration : Option Int
deriving Repr, DecidableEq

/-- A row of the `punishments` table.  The api-key `POST /punish` insert
sets only `user_id`, `moderator_id`, `command_name`, `reason`,
`expires_at` and `active`; the table's guild column (populated elsewhere)
is carried as an `Option` and left unset by that insert. -/
structure PunishmentRow where
  user_id : String
  moderator_id : String
  command_name : String
  reason : String
  expires_at : Option Int
  active : Bool
  guild_id : Option String
deriving Repr, DecidableEq

/-- `expiresAt` as computed by the api-key `POST /punish`:
`duration ? new Date(Date.now() + parseInt(duration) * 60 * 1000) : null`
(duration is taken in minutes). -/
def punishExpiresAt (dur : Option Int) (now : Nat) : Option Int :=
  match dur with
  | some d => if d ≠ 0 then some ((now : Int) + d * 60 * 1000) else none
  | none => none

/-- `POST /punish` (api-key variant, `src/routes/giveaways.js`): validates
presence of ids and action (reason optional), requires guild and member,
switches on `action.toLowerCase()`, returns `500` with no write when the
Discord call throws, `400` for a timeout/mute without a truthy duration,
and on success inserts a `mod_logs` row and — for ban/timeout/mute — a
`punishments` row with `active = true`. -/
def gwApiPunish (guild_id user_id moderator_id action reason : Option String)
    (dur : Option Int) (guildExists memberExists : Bool) (gw : Option String)
    (modLogs : List MLogRec) (punishments : List PunishmentRow) (now : Nat) :
    Resp × List MLogRec × List PunishmentRow × List EnfCall :=
  if ¬ (present guild_id && present user_id && present moderator_id && present action) then
    (⟨400, none⟩, modLogs, punishments, [])
  else if ¬ guildExists then
    (⟨404, none⟩, modLogs, punishments, [])
  else if ¬ memberExists then
    (⟨404, none⟩, modLogs, punishments, [])
  else
    let act := action.getD ""
    let actL := lowerStr act
    let rsn := orElse reason "No reason provided"
    let uid := user_id.getD ""
    let finish : Option Int → List EnfCall → Resp × List MLogRec × List PunishmentRow × List EnfCall :=
      fun detailsDur calls =>
        let mlog : MLogRec :=
          { guild_id := guild_id.getD "", user_id := uid,
            moderator_id := moderator_id.getD "", action := act,
            details_reason := rsn, details_duration := detailsDur }
        let punishments' :=
          if ["ban", "timeout", "mute"].contains actL then
            punishments ++
              [{ user_id := uid, moderator_id := moderator_id.getD "",
                 command_name := act, reason := rsn,
                 expires_at := punishExpiresAt dur now, active := true,
                 guild_id := none : PunishmentRow }]
          else punishments
        (⟨200, some true⟩, modLogs ++ [mlog], punishments', calls)
    if actL = "ban" then
      match gw with
      | some _ => (⟨500, none⟩, modLogs, punishments, [.banCall uid rsn])
      | none => finish none [.banCall uid rsn]
    else if actL = "kick" then
      match gw with
      | some _ => (⟨500, none⟩, modLogs, punishments, [.kickCall rsn])
      | none => finish none [.kickCall rsn]
    else if actL = "timeout" ∨ actL = "mute" then
      match dur with
      | some d =>
        if d ≠ 0 then
          match gw with
          | some _ => (⟨500, none⟩, modLogs, punishments, [.timeoutCall (d * 60 * 1000) rsn])
          | none => finish (some d) [.timeoutCall (d * 60 * 1000) rsn]
        else (⟨400, none⟩, modLogs, punishments, [])
      | none => (⟨400, none⟩, modLogs, punishments, [])
    else if actL = "warn" then
      finish none []
    else (⟨400, none⟩, modLogs, punishments, [])

/-- The `punishments` update performed by `POST /unpunish`:
`.update({active: false}).eq("user_id", u).eq("command_name", cmd)` —
matched on user and command name only, with no guild condition. -/
def unpunishUpdate (rows : List PunishmentRow) (uid cmd : String) :
    List PunishmentRow :=
  rows.map (fun r =>
    if r.user_id == uid && r.command_name == cmd then { r with active := false }
    else r)

/-- `POST /unpunish` (`src/routes/giveaways.js`): validates, requires the
guild, performs the Discord removal (a throw yields `500` with no update;
an `untimeout`/`unmute` for a missing member silently sends no response at
all, modelled as `none`), then deactivates every `punishments` row whose
`user_id` and `command_name = action.replace("un","")` match. -/
def unpunishHandler (guild_id user_id action : Option String)
    (guildExists memberExists : Bool) (gw : Option String)
    (rows : List PunishmentRow) :
    Option Resp × List PunishmentRow × List EnfCall :=
  if ¬ (present guild_id && present user_id && present action) then
    (some ⟨400, none⟩, rows, [])
  else if ¬ guildExists then
    (some ⟨404, none⟩, rows, [])
  else
    let act := action.getD ""
    let actL := lowerStr act
    let uid := user_id.getD ""
    if actL = "unban" then
      match gw with
      | some _ => (some ⟨500, none⟩, rows, [.unbanCall uid])
      | none => (some ⟨200, some true⟩, unpunishUpdate rows uid (replaceUn act), [.unbanCall uid])
    else if actL = "untimeout" ∨ actL = "unmute" then
      if memberExists then
        match gw with
        | some _ => (some ⟨500, none⟩, rows, [.clearTimeoutCall])
        | none => (some ⟨200, some true⟩, unpunishUpdate rows uid (replaceUn act), [.clearTimeoutCall])
      else (none, rows, [])
    else (some ⟨400, none⟩, rows, [])

/-! ## Helper lemmas -/

theorem present_some {s : String} (h : s ≠ "") : present (some s) = true := by
  simp [present]
  exact h

theorem mem_insertDescBy (key : α → Nat) (x a : α) (l : List α) :
    a ∈ insertDescBy key x l ↔ a = x ∨ a ∈ l := by
  induction l with
  | nil => simp [insertDescBy]
  | cons y ys ih =>
    simp only [insertDescBy]
    split
    · simp only [List.mem_cons, ih]
      tauto
    · simp only [List.mem_cons]

theorem mem_sortDescBy (key : α → Nat) (a : α) (l : List α) :
    a ∈ sortDescBy key l ↔ a ∈ l := by
  induction l with
  | nil => simp [sortDescBy]
  | cons x xs ih => simp [sortDescBy, mem_insertDescBy, ih]

theorem head_sortDescBy_append (key : α → Nat) (x : α) (l : List α)
    (h : ∀ y ∈ l, key y < key x) :
    (sortDescBy key (l ++ [x])).head? = some x := by
  induction l with
  | nil => simp [sortDescBy, insertDescBy]
  | cons y ys ih =>
    have hy : key y < key x := h y (by simp)
    have ih2 := ih (fun z hz => h z (by simp [hz]))
    simp only [List.cons_append, sortDescBy]
    cases hs : sortDescBy key (ys ++ [x]) with
    | nil => rw [hs] at ih2; simp at ih2
    | cons z zs =>
      rw [hs] at ih2
      simp only [List.head?_cons, Option.some.injEq] at ih2
      subst ih2
      simp [insertDescBy, Nat.le_of_lt hy]

theorem isSortedDescBy_insertDescBy (key : α → Nat) (x : α) :
    ∀ l : List α, isSortedDescBy key l = true →
      isSortedDescBy key (insertDescBy key x l) = true
  | [], _ => by simp [insertDescBy, isSortedDescBy]
  | [y], _ => by
    by_cases hxy : key x ≤ key y
    · simp [insertDescBy, hxy, isSortedDescBy]
    · simp [insertDescBy, hxy, isSortedDescBy, Nat.le_of_lt (Nat.lt_of_not_le hxy)]
  | y :: z :: zs, h => by
    have h1 : key z ≤ key y := by
      simp only [isSortedDescBy, Bool.and_eq_true, decide_eq_true_eq] at h
      exact h.1
    have h2 : isSortedDescBy key (z :: zs) = true := by
      simp only [isSortedDescBy, Bool.and_eq_true] at h
      exact h.2
    by_cases hxy : key x ≤ key y
    · have ih := isSortedDescBy_insertDescBy key x (z :: zs) h2
      by_cases hxz : key x ≤ key z
      · simp only [insertDescBy, if_pos hxy, if_pos hxz] at ih ⊢
        simp only [isSortedDescBy, Bool.and_eq_true, decide_eq_true_eq]
        exact ⟨h1, ih⟩
      · simp only [insertDescBy, if_pos hxy, if_neg hxz]
        simp only [isSortedDescBy, Bool.and_eq_true, decide_eq_true_eq]
        exact ⟨hxy, Nat.le_of_lt (Nat.lt_of_not_le hxz), by
          simpa [isSortedDescBy] using h2⟩
    · simp only [insertDescBy, if_neg hxy]
      simp only [isSortedDescBy, Bool.and_eq_true, decide_eq_true_eq]
      refine ⟨Nat.le_of_lt (Nat.lt_of_not_le hxy), h1, ?_⟩
      simpa [isSortedDescBy] using h2

theorem isSortedDescBy_sortDescBy (key : α → Nat) (l : List α) :
    isSortedDescBy key (sortDescBy key l) = true := by
  induction l with
  | nil => simp [sortDescBy, isSortedDescBy]
  | cons x xs ih =>
    simpa [sortDescBy] using isSortedDescBy_insertDescBy key x (sortDescBy key xs) ih

theorem mem_historyQuery (store : List ModLog) (g u : String) (r : ModLog) :
    r ∈ historyQuery store g u ↔ r ∈ store ∧ r.guild_id = g ∧ r.user_id = u := by
  unfold historyQuery
  rw [mem_sortDescBy]
  simp [List.mem_filter, and_assoc]

theorem historyQuery_append_fresh (store : List ModLog) (g u : String) (r : ModLog)
    (hg : r.guild_id = g) (hu : r.user_id = u)
    (hfresh : ∀ s ∈ store, s.guild_id = g → s.user_id = u →
      s.created_at < r.created_at) :
    (historyQuery (store ++ [r]) g u).head? = some r := by
  unfold historyQuery
  rw [List.filter_append]
  have hsingle : ([r].filter (fun s => s.guild_id == g && s.user_id == u)) = [r] := by
    simp [hg, hu]
  rw [hsingle]
  apply head_sortDescBy_append
  intro y hy
  rw [List.mem_filter] at hy
  simp only [Bool.and_eq_true, beq_iff_eq] at hy
  exact hfresh y hy.1 hy.2.1 hy.2.2

theorem activeBase_eq_true_iff (gf : Option String) (p : GLog) :
    activeBase gf p = true ↔
      ((p.action = "timeout" ∨ p.action = "ban") ∧ p.executed = true ∧
        ∀ g, gf = some g → p.guild_id = g) := by
  cases gf <;> simp [activeBase, and_assoc]

theorem notExpired_eq_true_iff (now : Nat) (p : GLog) :
    notExpired now p = true ↔
      (∀ d, p.duration = some d → p.action = "timeout" → d ≠ 0 →
        (p.created_at : Int) + d * 1000 > (now : Int)) := by
  cases hd : p.duration with
  | none => simp [notExpired, hd]
  | some d =>
    simp only [notExpired, hd, Option.some.injEq]
    by_cases hb : (p.action == "timeout" && d != 0) = true
    · simp only [Bool.and_eq_true, beq_iff_eq, bne_iff_ne] at hb
      simp [hb.1, hb.2]
    · simp only [Bool.and_eq_true, beq_iff_eq, bne_iff_ne] at hb
      rw [Classical.not_and_iff_or_not_not] at hb
      constructor
      · intro _ d2 hd2 hact hd2ne
        cases hd2
        rcases hb with hb | hb
        · exact absurd hact hb
        · exact absurd hd2ne (by simpa using hb)
      · intro _
        have : ¬ ((p.action == "timeout" && d != 0) = true) := by
          simp only [Bool.and_eq_true, beq_iff_eq, bne_iff_ne]
          tauto
        simp [this]

/-! ## Claims -/

/-- C8: after a successful punish insert, the per-user history query
returns every `moderation_logs` row for the `(guild, user)` pair —
forward and reversal rows alike, with no status filtering — ordered by
`created_at` descending, and the freshly inserted row is its first
element (given that its timestamp is strictly newer than every earlier
row for the pair). -/
theorem issue_then_history_head
    (gId modId uid act reason : String) (dur : Option Int) (gw : Option String)
    (store : List ModLog) (nextId now : Nat)
    (hact : act ∈ ["warn", "mute", "kick", "ban", "timeout"])
    (huid : uid ≠ "") (hreason : reason ≠ "")
    (hfresh : ∀ r ∈ store, r.guild_id = gId → r.user_id = uid →
      r.created_at < now) :
    (moderationPunish gId modId (some uid) (some act) (some reason) dur
        true true gw store nextId now).1.status = 201 ∧
    (moderationPunish gId modId (some uid) (some act) (some reason) dur
        true true gw store nextId now).2.1 =
      store ++ [punishRecord gId modId uid act reason dur true gw nextId now] ∧
    (historyQuery (moderationPunish gId modId (some uid) (some act)
        (some reason) dur true true gw store nextId now).2.1 gId uid).head? =
      some (punishRecord gId modId uid act reason dur true gw nextId now) ∧
    (∀ r, r ∈ historyQuery (moderationPunish gId modId (some uid) (some act)
        (some reason) dur true true gw store nextId now).2.1 gId uid ↔
      r ∈ (moderationPunish gId modId (some uid) (some act) (some reason) dur
        true true gw store nextId now).2.1 ∧ r.guild_id = gId ∧ r.user_id = uid) ∧
    isSortedDescBy ModLog.created_at
      (historyQuery (moderationPunish gId modId (some uid) (some act)
        (some reason) dur true true gw store nextId now).2.1 gId uid) = true := by
  have hrun : moderationPunish gId modId (some uid) (some act) (some reason) dur
      true true gw store nextId now =
      (⟨201, some (execPunishAction act true uid reason (durMsOf dur) gw).1⟩,
       store ++ [punishRecord gId modId uid act reason dur true gw nextId now],
       (execPunishAction act true uid reason (durMsOf dur) gw).2.2) := by
    fin_cases hact <;>
      simp [moderationPunish, present, huid, hreason]
  rw [hrun]
  refine ⟨rfl, rfl, ?_, ?_, ?_⟩
  · exact historyQuery_append_fresh store gId uid _ rfl rfl hfresh
  · intro r
    exact mem_historyQuery _ gId uid r
  · exact isSortedDescBy_sortDescBy _ _

theorem issue_then_history_head_witness :
    ("u1" : String) ≠ "" ∧ ("spam" : String) ≠ "" ∧
    (historyQuery (moderationPunish "g1" "m1" (some "u1") (some "warn")
        (some "spam") none true true none [] 7 100).2.1 "g1" "u1").head? =
      some (punishRecord "g1" "m1" "u1" "warn" "spam" none true none 7 100) := by
  refine ⟨by decide, by decide, ?_⟩
  exact (issue_then_history_head "g1" "m1" "u1" "warn" "spam" none none [] 7 100
    (by decide) (by decide) (by decide) (by intro r hr; cases hr)).2.2.1

/-- C9: a punish request of kind mute or timeout with no duration is not
rejected: the handler still calls `member.timeout` with the default
`10 * 60 * 1000` milliseconds, returns `201`, and persists the log row
with no duration value. -/
theorem moderationPunish_default_timeout
    (gId modId uid reason act : String) (gw : Option String)
    (store : List ModLog) (nextId now : Nat)
    (hact : act = "mute" ∨ act = "timeout")
    (huid : uid ≠ "") (hreason : reason ≠ "") :
    moderationPunish gId modId (some uid) (some act) (some reason) none
        true true gw store nextId now =
      (⟨201, some gw.isNone⟩,
       store ++ [{ id := nextId, guild_id := gId, user_id := uid,
                   moderator_id := modId, action_type := act, reason := reason,
                   duration := none, success := gw.isNone, error_message := gw,
                   created_at := now }],
       [.timeoutCall 600000 reason]) := by
  rcases hact with h | h <;> subst h <;> cases gw <;>
    simp [moderationPunish, punishRecord, execPunishAction, durMsOf,
      present, huid, hreason]

theorem moderationPunish_default_timeout_witness :
    ("u1" : String) ≠ "" ∧ ("spam" : String) ≠ "" ∧
    moderationPunish "g1" "m1" (some "u1") (some "timeout") (some "spam") none
        true true none [] 1 100 =
      (⟨201, some true⟩,
       [{ id := 1, guild_id := "g1", user_id := "u1", moderator_id := "m1",
          action_type := "timeout", reason := "spam", duration := none,
          success := true, error_message := none, created_at := 100 }],
       [.timeoutCall 600000 "spam"]) :=
  ⟨by decide, by decide,
   moderationPunish_default_timeout "g1" "m1" "u1" "spam" "timeout" none [] 1 100
     (Or.inr rfl) (by decide) (by decide)⟩

/-- C10: the `/unpunish` update matches `punishments` rows on `user_id`
and `command_name` only — there is no guild condition — so a reversal
requested for one guild deactivates the user's matching rows in every
guild. -/
theorem unpunish_deactivates_across_guilds (gid uid : String) (mem : Bool)
    (rows : List PunishmentRow) (hg : gid ≠ "") (hu : uid ≠ "") :
    unpunishHandler (some gid) (some uid) (some "unban") true mem none rows =
      (some ⟨200, some true⟩,
       rows.map (fun r =>
         if r.user_id == uid && r.command_name == "ban" then
           { r with active := false }
         else r),
       [.unbanCall uid]) ∧
    ∀ r, r ∈ rows → r.user_id = uid → r.command_name = "ban" →
      { r with active := false } ∈
        (unpunishHandler (some gid) (some uid) (some "unban") true mem none
          rows).2.1 := by
  have hlow : lowerStr "unban" = "unban" := by decide
  have hrep : replaceUn "unban" = "ban" := by decide
  have heq : unpunishHandler (some gid) (some uid) (some "unban") true mem none rows =
      (some ⟨200, some true⟩,
       rows.map (fun r =>
         if r.user_id == uid && r.command_name == "ban" then
           { r with active := false }
         else r),
       [.unbanCall uid]) := by
    simp [unpunishHandler, present, hg, hu, hlow, hrep, unpunishUpdate]
  refine ⟨heq, ?_⟩
  intro r hr hru hrc
  rw [heq]
  refine List.mem_map.mpr ⟨r, hr, ?_⟩
  simp [hru, hrc]

theorem unpunish_deactivates_across_guilds_witness :
    ("g1" : String) ≠ "" ∧ ("u1" : String) ≠ "" ∧
    { user_id := "u1", moderator_id := "m1", command_name := "ban",
      reason := "spam", expires_at := none, active := false,
      guild_id := some "g2" : PunishmentRow } ∈
      (unpunishHandler (some "g1") (some "u1") (some "unban") true true none
        [{ user_id := "u1", moderator_id := "m1", command_name := "ban",
           reason := "spam", expires_at := none, active := true,
           guild_id := some "g2" },
         { user_id := "u1", moderator_id := "m1", command_name := "ban",
           reason := "spam", expires_at := none, active := true,
           guild_id := some "g1" }]).2.1 := by
  refine ⟨by decide, by decide, ?_⟩
  exact (unpunish_deactivates_across_guilds "g1" "u1" true
      [{ user_id := "u1", moderator_id := "m1", command_name := "ban",
         reason := "spam", expires_at := none, active := true,
         guild_id := some "g2" },
       { user_id := "u1", moderator_id := "m1", command_name := "ban",
         reason := "spam", expires_at := none, active := true,
         guild_id := some "g1" }] (by decide) (by decide)).2
    { user_id := "u1", moderator_id := "m1", command_name := "ban",
      reason := "spam", expires_at := none, active := true,
      guild_id := some "g2" } (by simp) rfl rfl

/-- C1 counterexample: in the `discordAPI.punishMember` punish variant, a
gateway result with `succeeded = false` aborts the request with `400` and
writes no record at all — persistence is prevented, contrary to the
claim. -/
theorem gwTokenPunish_enforcement_failure_aborts :
    gwTokenPunish "m1" (some "g1") (some "u1") (some "ban") (some "spam") none
        false "member not found" [] 1 0 =
      (⟨400, none⟩, []) := by decide

/-- C1 (amended): in the `moderation.js` punish route, a throwing Discord
call does not prevent persistence — the handler still inserts the log row
with `success = false` and the error message captured, and responds `201`
with a false success flag.  (The `giveaways.js` `punishMember` variant
instead aborts with `400` and no write.) -/
theorem moderationPunish_failure_still_persists
    (gId modId uid act reason e : String) (dur : Option Int)
    (store : List ModLog) (nextId now : Nat)
    (hact : act = "mute" ∨ act = "kick" ∨ act = "ban" ∨ act = "timeout")
    (huid : uid ≠ "") (hreason : reason ≠ "") :
    (moderationPunish gId modId (some uid) (some act) (some reason) dur
        true true (some e) store nextId now).1 = ⟨201, some false⟩ ∧
    (moderationPunish gId modId (some uid) (some act) (some reason) dur
        true true (some e) store nextId now).2.1 =
      store ++ [punishRecord gId modId uid act reason dur true (some e) nextId now] ∧
    (punishRecord gId modId uid act reason dur true (some e) nextId now).success
      = false ∧
    (punishRecord gId modId uid act reason dur true (some e) nextId now).error_message
      = some e := by
  rcases hact with h | h | h | h <;> subst h <;>
    simp [moderationPunish, punishRecord, execPunishAction, durMsOf,
      present, huid, hreason]

theorem moderationPunish_failure_still_persists_witness :
    (("ban" : String) = "mute" ∨ ("ban" : String) = "kick" ∨
      ("ban" : String) = "ban" ∨ ("ban" : String) = "timeout") ∧
    ("u1" : String) ≠ "" ∧ ("spam" : String) ≠ "" ∧
    (moderationPunish "g1" "m1" (some "u1") (some "ban") (some "spam") none
        true true (some "missing permission") [] 1 100).1 = ⟨201, some false⟩ ∧
    (moderationPunish "g1" "m1" (some "u1") (some "ban") (some "spam") none
        true true (some "missing permission") [] 1 100).2.1 =
      [punishRecord "g1" "m1" "u1" "ban" "spam" none true
        (some "missing permission") 1 100] :=
  ⟨by decide, by decide, by decide,
   (moderationPunish_failure_still_persists "g1" "m1" "u1" "ban" "spam"
      "missing permission" none [] 1 100 (by decide) (by decide) (by decide)).1,
   by
    have := (moderationPunish_failure_still_persists "g1" "m1" "u1" "ban" "spam"
      "missing permission" none [] 1 100 (by decide) (by decide) (by decide)).2.1
    simpa using this⟩

/-- C2 counterexample: a `mute` record whose computed expiry is still in
the future (under either a seconds or a milliseconds reading) is absent
from the active view, because the base query only selects the actions
`timeout` and `ban`. -/
theorem listActive_excludes_unexpired_mute :
    listActive
        [{ id := 1, guild_id := "g1", user_id := "u1", moderator_id := "m1",
           action := "mute", reason := "spam", duration := some 600,
           executed := true, related_log_id := none, created_at := 0 }]
        (some "g1") 100 = [] ∧
    (0 : Int) + 600 * 1000 > 100 ∧ (0 : Int) + 600 > 100 := by decide

/-- C2 (amended): the active view contains exactly the stored rows whose
action is `timeout` or `ban` with `executed = true` and a matching guild;
a `timeout` with a truthy duration is dropped exactly when
`created_at + duration * 1000 ≤ now`; `ban` rows (and duration-less
timeouts) are always kept; `mute` rows are never returned. -/
theorem listActive_mem_iff (store : List GLog) (gf : Option String)
    (now : Nat) (p : GLog) :
    p ∈ listActive store gf now ↔
      p ∈ store ∧ (p.action = "timeout" ∨ p.action = "ban") ∧
        p.executed = true ∧ (∀ g, gf = some g → p.guild_id = g) ∧
        (∀ d, p.duration = some d → p.action = "timeout" → d ≠ 0 →
          (p.created_at : Int) + d * 1000 > (now : Int)) := by
  unfold listActive
  rw [List.mem_filter, mem_sortDescBy, List.mem_filter]
  rw [activeBase_eq_true_iff, notExpired_eq_true_iff]
  tauto

/-- C3 counterexample: after a successful reverse of a `ban` record, the
original record is byte-for-byte unchanged in the store — no `Reversed`
status flip and no back-pointer is ever written to it (only the new
`unban` row carries `related_log_id`). -/
theorem gwRemove_leaves_original_unchanged :
    gwRemove "m2" 1 none true
        [{ id := 1, guild_id := "g1", user_id := "u1", moderator_id := "m0",
           action := "ban", reason := "spam", duration := none,
           executed := true, related_log_id := none, created_at := 50 }] 2 100 =
      (⟨200, some true⟩,
       [{ id := 1, guild_id := "g1", user_id := "u1", moderator_id := "m0",
          action := "ban", reason := "spam", duration := none,
          executed := true, related_log_id := none, created_at := 50 },
        { id := 2, guild_id := "g1", user_id := "u1", moderator_id := "m2",
          action := "unban", reason := "Ban removed via dashboard",
          duration := none, executed := true, related_log_id := some 1,
          created_at := 100 }],
       [.unbanCall "u1"]) := by decide

/-- C3 (amended): a successful reverse appends a new reversal record whose
`related_log_id` points at the original; the original record itself is
never mutated (the store after the operation is the old store plus the
one new row). -/
theorem gwRemove_appends_linked_reversal
    (modId : String) (logId : Nat) (reason : Option String)
    (guildExists : Bool) (store : List GLog) (nextId now : Nat) (orig : GLog)
    (hfind : store.find? (fun r => r.id == logId) = some orig)
    (hban : orig.action = "ban") :
    gwRemove modId logId reason guildExists store nextId now =
      (⟨200, some true⟩,
       store ++ [gwRemovalRecord modId orig logId reason nextId now],
       if guildExists then [EnfCall.unbanCall orig.user_id] else []) ∧
    (gwRemovalRecord modId orig logId reason nextId now).related_log_id
      = some logId := by
  constructor
  · simp [gwRemove, hfind, hban]
  · rfl

theorem gwRemove_appends_linked_reversal_witness :
    ([{ id := 1, guild_id := "g1", user_id := "u1", moderator_id := "m0",
        action := "ban", reason := "spam", duration := none, executed := true,
        related_log_id := none, created_at := 50 : GLog }].find?
      (fun r => r.id == 1) =
      some { id := 1, guild_id := "g1", user_id := "u1", moderator_id := "m0",
             action := "ban", reason := "spam", duration := none,
             executed := true, related_log_id := none, created_at := 50 }) ∧
    ({ id := 1, guild_id := "g1", user_id := "u1", moderator_id := "m0",
       action := "ban", reason := "spam", duration := none, executed := true,
       related_log_id := none, created_at := 50 : GLog }).action = "ban" ∧
    gwRemove "m2" 1 (some "appeal accepted") true
        [{ id := 1, guild_id := "g1", user_id := "u1", moderator_id := "m0",
           action := "ban", reason := "spam", duration := none,
           executed := true, related_log_id := none, created_at := 50 }] 2 100 =
      (⟨200, some true⟩,
       [{ id := 1, guild_id := "g1", user_id := "u1", moderator_id := "m0",
          action := "ban", reason := "spam", duration := none,
          executed := true, related_log_id := none, created_at := 50 }] ++
         [gwRemovalRecord "m2"
           { id := 1, guild_id := "g1", user_id := "u1", moderator_id := "m0",
             action := "ban", reason := "spam", duration := none,
             executed := true, related_log_id := none, created_at := 50 }
           1 (some "appeal accepted") 2 100],
       if true then [EnfCall.unbanCall "u1"] else []) := by
  refine ⟨by decide, by decide, ?_⟩
  exact (gwRemove_appends_linked_reversal "m2" 1 (some "appeal accepted") true
    [{ id := 1, guild_id := "g1", user_id := "u1", moderator_id := "m0",
       action := "ban", reason := "spam", duration := none, executed := true,
       related_log_id := none, created_at := 50 }] 2 100
    { id := 1, guild_id := "g1", user_id := "u1", moderator_id := "m0",
      action := "ban", reason := "spam", duration := none, executed := true,
      related_log_id := none, created_at := 50 }
    (by decide) (by decide)).1

/-- C4 counterexample: issuing a second ban for the same `(guild, user)`
pair while the first is still active also succeeds with `201` and writes a
second record — there is no conflict rejection and the at-most-one-active-
ban invariant does not hold. -/
theorem moderationPunish_duplicate_ban_accepted :
    (moderationPunish "g1" "m1" (some "u1") (some "ban") (some "spam") none
        true true none [] 1 100).1.status = 201 ∧
    moderationPunish "g1" "m1" (some "u1") (some "ban") (some "spam") none
        true true none
        (moderationPunish "g1" "m1" (some "u1") (some "ban") (some "spam") none
          true true none [] 1 100).2.1 2 200 =
      (⟨201, some true⟩,
       [{ id := 1, guild_id := "g1", user_id := "u1", moderator_id := "m1",
          action_type := "ban", reason := "spam", duration := none,
          success := true, error_message := none, created_at := 100 },
        { id := 2, guild_id := "g1", user_id := "u1", moderator_id := "m1",
          action_type := "ban", reason := "spam", duration := none,
          success := true, error_message := none, created_at := 200 }],
       [.banCall "u1" "spam"]) := by decide

/-- C4 (amended): the punish handler enforces no uniqueness: a valid ban
request always results in an unconditional insert and a `201` response,
for every store state — including stores already holding an unreversed,
unexpired ban record for the same pair — and no conflict-error path
exists. -/
theorem moderationPunish_ban_unconditional_insert
    (gId modId uid reason : String) (mem : Bool) (gw : Option String)
    (store : List ModLog) (nextId now : Nat)
    (huid : uid ≠ "") (hreason : reason ≠ "") :
    moderationPunish gId modId (some uid) (some "ban") (some reason) none
        true mem gw store nextId now =
      (⟨201, some gw.isNone⟩,
       store ++ [punishRecord gId modId uid "ban" reason none mem gw nextId now],
       [.banCall uid reason]) := by
  cases gw <;>
    simp [moderationPunish, punishRecord, execPunishAction, durMsOf,
      present, huid, hreason]

theorem moderationPunish_ban_unconditional_insert_witness :
    ("u1" : String) ≠ "" ∧ ("spam" : String) ≠ "" ∧
    moderationPunish "g1" "m1" (some "u1") (some "ban") (some "spam") none
        true true none
        [{ id := 1, guild_id := "g1", user_id := "u1", moderator_id := "m1",
           action_type := "ban", reason := "earlier ban", duration := none,
           success := true, error_message := none, created_at := 100 }] 2 200 =
      (⟨201, some true⟩,
       [{ id := 1, guild_id := "g1", user_id := "u1", moderator_id := "m1",
          action_type := "ban", reason := "earlier ban", duration := none,
          success := true, error_message := none, created_at := 100 }] ++
         [punishRecord "g1" "m1" "u1" "ban" "spam" none true none 2 200],
       [.banCall "u1" "spam"]) :=
  ⟨by decide, by decide,
   moderationPunish_ban_unconditional_insert "g1" "m1" "u1" "spam" true none
     [{ id := 1, guild_id := "g1", user_id := "u1", moderator_id := "m1",
        action_type := "ban", reason := "earlier ban", duration := none,
        success := true, error_message := none, created_at := 100 }] 2 200
     (by decide) (by decide)⟩

/-- C5 counterexample: removing a `warn` record in `moderation.js` is not
rejected: the `default` branch marks it successful, an `unwarn` row is
written, and the response is `200` with `success = true` (no gateway call
is made, but the operation neither fails nor leaves the store
unchanged). -/
theorem modRemove_warn_writes_and_succeeds :
    modRemove "g1" "m2" 1 true true none
        [{ id := 1, guild_id := "g1", user_id := "u1", moderator_id := "m0",
           action_type := "warn", reason := "spam", duration := none,
           success := true, error_message := none, created_at := 50 }] 2 100 =
      (⟨200, some true⟩,
       [{ id := 1, guild_id := "g1", user_id := "u1", moderator_id := "m0",
          action_type := "warn", reason := "spam", duration := none,
          success := true, error_message := none, created_at := 50 },
        { id := 2, guild_id := "g1", user_id := "u1", moderator_id := "m2",
          action_type := "unwarn",
          reason := "Punishment removed via dashboard", duration := none,
          success := true, error_message := none, created_at := 100 }],
       []) := by decide

/-- C5 (amended): only the giveaways remove variant rejects irreversible
kinds, and it does so for everything that is not a `ban`: the request
fails with `400`, no gateway call is made and nothing is written (status
is never consulted; `moderation.js` instead treats warn/kick removals as
successful and writes an `un` row). -/
theorem gwRemove_nonban_rejected_no_write
    (modId : String) (logId : Nat) (reason : Option String)
    (guildExists : Bool) (store : List GLog) (nextId now : Nat) (orig : GLog)
    (hfind : store.find? (fun r => r.id == logId) = some orig)
    (hnb : orig.action ≠ "ban") :
    gwRemove modId logId reason guildExists store nextId now =
      (⟨400, none⟩, store, []) := by
  simp [gwRemove, hfind, hnb]

theorem gwRemove_nonban_rejected_no_write_witness :
    ([{ id := 1, guild_id := "g1", user_id := "u1", moderator_id := "m0",
        action := "warn", reason := "spam", duration := none, executed := true,
        related_log_id := none, created_at := 50 : GLog }].find?
      (fun r => r.id == 1) =
      some { id := 1, guild_id := "g1", user_id := "u1", moderator_id := "m0",
             action := "warn", reason := "spam", duration := none,
             executed := true, related_log_id := none, created_at := 50 }) ∧
    ({ id := 1, guild_id := "g1", user_id := "u1", moderator_id := "m0",
       action := "warn", reason := "spam", duration := none, executed := true,
       related_log_id := none, created_at := 50 : GLog }).action ≠ "ban" ∧
    gwRemove "m2" 1 none true
        [{ id := 1, guild_id := "g1", user_id := "u1", moderator_id := "m0",
           action := "warn", reason := "spam", duration := none,
           executed := true, related_log_id := none, created_at := 50 }] 2 100 =
      (⟨400, none⟩,
       [{ id := 1, guild_id := "g1", user_id := "u1", moderator_id := "m0",
          action := "warn", reason := "spam", duration := none,
          executed := true, related_log_id := none, created_at := 50 }],
       []) := by
  refine ⟨by decide, by decide, ?_⟩
  exact gwRemove_nonban_rejected_no_write "m2" 1 none true
    [{ id := 1, guild_id := "g1", user_id := "u1", moderator_id := "m0",
       action := "warn", reason := "spam", duration := none, executed := true,
       related_log_id := none, created_at := 50 }] 2 100
    { id := 1, guild_id := "g1", user_id := "u1", moderator_id := "m0",
      action := "warn", reason := "spam", duration := none, executed := true,
      related_log_id := none, created_at := 50 }
    (by decide) (by decide)

/-- C6 counterexample: `moderation.js` performs no duration validation —
a `timeout` with no duration is accepted with `201` (claim demanded
rejection), and a `ban` supplying a duration is also accepted with `201`
and the duration stored (claim demanded rejection). -/
theorem moderationPunish_no_duration_validation :
    (moderationPunish "g1" "m1" (some "u1") (some "timeout") (some "spam")
        none true true none [] 1 100).1.status = 201 ∧
    moderationPunish "g1" "m1" (some "u1") (some "ban") (some "spam")
        (some 60) true true none [] 1 100 =
      (⟨201, some true⟩,
       [{ id := 1, guild_id := "g1", user_id := "u1", moderator_id := "m1",
          action_type := "ban", reason := "spam", duration := some 60,
          success := true, error_message := none, created_at := 100 }],
       [.banCall "u1" "spam"]) := by decide

/-- C6 (amended): only the api-key giveaways punish variant checks
durations, and only that a timeout/mute carries a truthy one: such a
request with an absent (or zero) duration is rejected with `400` before
any gateway call or write; no variant rejects other kinds that supply a
duration, and `moderation.js` validates durations not at all. -/
theorem gwApiPunish_missing_duration_rejected
    (gid uid mid act : String) (reason : Option String) (dur : Option Int)
    (gw : Option String) (modLogs : List MLogRec)
    (punishments : List PunishmentRow) (now : Nat)
    (hg : gid ≠ "") (hu : uid ≠ "") (hm : mid ≠ "") (ha : act ≠ "")
    (hact : lowerStr act = "timeout" ∨ lowerStr act = "mute")
    (hdur : dur = none ∨ dur = some 0) :
    gwApiPunish (some gid) (some uid) (some mid) (some act) reason dur
        true true gw modLogs punishments now =
      (⟨400, none⟩, modLogs, punishments, []) := by
  have hb : lowerStr act ≠ "ban" := by
    rcases hact with h | h <;> rw [h] <;> decide
  have hk : lowerStr act ≠ "kick" := by
    rcases hact with h | h <;> rw [h] <;> decide
  rcases hdur with h | h <;> subst h <;>
    simp [gwApiPunish, present, hg, hu, hm, ha, hb, hk, hact]

theorem gwApiPunish_missing_duration_rejected_witness :
    ("g1" : String) ≠ "" ∧ ("u1" : String) ≠ "" ∧ ("m1" : String) ≠ "" ∧
    ("timeout" : String) ≠ "" ∧
    (lowerStr "timeout" = "timeout" ∨ lowerStr "timeout" = "mute") ∧
    gwApiPunish (some "g1") (some "u1") (some "m1") (some "timeout")
        (some "spam") none true true none [] [] 100 =
      (⟨400, none⟩, [], [], []) := by
  refine ⟨by decide, by decide, by decide, by decide, Or.inl (by decide), ?_⟩
  exact gwApiPunish_missing_duration_rejected "g1" "u1" "m1" "timeout"
    (some "spam") none none [] [] 100 (by decide) (by decide) (by decide)
    (by decide) (Or.inl (by decide)) (Or.inl rfl)

/-- C7 counterexample: for a valid timeout with `duration = 1` issued at
`now = 0`, the persisted `expires_at` is `60000` (the duration is taken in
minutes and converted to milliseconds), not `issuedAt + 1` as the claim
requires. -/
theorem gwApiPunish_expiry_minutes_not_seconds :
    (gwApiPunish (some "g1") (some "u1") (some "m1") (some "timeout")
        (some "spam") (some 1) true true none [] [] 0).2.2.1 =
      [{ user_id := "u1", moderator_id := "m1", command_name := "timeout",
         reason := "spam", expires_at := some 60000, active := true,
         guild_id := none }] ∧
    (60000 : Int) ≠ 0 + 1 := by decide

/-- C7 (amended): for every persisted punishment row the stored
`expires_at` is `Date.now() + duration * 60 * 1000` — the request duration
is interpreted in minutes, not seconds — when the duration is truthy, and
`null` otherwise; in particular a `ban` supplying a duration also gets an
expiry, and a time-boxed row's expiry differs from `issuedAt +
durationSeconds`. -/
theorem gwApiPunish_expires_at_formula
    (gid uid mid act : String) (reason : Option String) (dur : Option Int)
    (modLogs : List MLogRec) (punishments : List PunishmentRow) (now : Nat)
    (hg : gid ≠ "") (hu : uid ≠ "") (hm : mid ≠ "") (ha : act ≠ "")
    (hl : lowerStr act = "ban" ∨
      ((lowerStr act = "timeout" ∨ lowerStr act = "mute") ∧
        truthyInt dur = true)) :
    (gwApiPunish (some gid) (some uid) (some mid) (some act) reason dur
        true true none modLogs punishments now).1 = ⟨200, some true⟩ ∧
    (gwApiPunish (some gid) (some uid) (some mid) (some act) reason dur
        true true none modLogs punishments now).2.2.1 =
      punishments ++
        [{ user_id := uid, moderator_id := mid, command_name := act,
           reason := orElse reason "No reason provided",
           expires_at := punishExpiresAt dur now, active := true,
           guild_id := none }] ∧
    (∀ d, dur = some d → d ≠ 0 →
      punishExpiresAt dur now = some ((now : Int) + d * 60 * 1000)) ∧
    (dur = none → punishExpiresAt dur now = none) := by
  rcases hl with h | ⟨hT, hd⟩
  · have hcont : (["ban", "timeout", "mute"].contains (lowerStr act)) = true := by
      rw [h]; decide
    refine ⟨?_, ?_, ?_, ?_⟩
    · simp [gwApiPunish, present, hg, hu, hm, ha, h, hcont]
    · simp [gwApiPunish, present, hg, hu, hm, ha, h, hcont]
    · intro d hde hdne
      simp [punishExpiresAt, hde, hdne]
    · intro hnone
      simp [punishExpiresAt, hnone]
  · obtain ⟨d, rfl⟩ : ∃ d, dur = some d := by
      cases dur with
      | none => simp [truthyInt] at hd
      | some d => exact ⟨d, rfl⟩
    have hdne : d ≠ 0 := by simpa [truthyInt] using hd
    have hb : lowerStr act ≠ "ban" := by
      rcases hT with h | h <;> rw [h] <;> decide
    have hk : lowerStr act ≠ "kick" := by
      rcases hT with h | h <;> rw [h] <;> decide
    have hcont : (["ban", "timeout", "mute"].contains (lowerStr act)) = true := by
      rcases hT with h | h <;> rw [h] <;> decide
    refine ⟨?_, ?_, ?_, ?_⟩
    · simp [gwApiPunish, present, hg, hu, hm, ha, hb, hk, hT, hcont, hdne]
    · simp [gwApiPunish, present, hg, hu, hm, ha, hb, hk, hT, hcont, hdne]
    · intro d2 hde hdne2
      obtain rfl : d = d2 := by injection hde
      simp [punishExpiresAt, hdne2]
    · intro hnone
      exact absurd hnone (by simp)

theorem gwApiPunish_expires_at_formula_witness :
    ("g1" : String) ≠ "" ∧ ("u1" : String) ≠ "" ∧ ("m1" : String) ≠ "" ∧
    ("timeout" : String) ≠ "" ∧
    (gwApiPunish (some "g1") (some "u1") (some "m1") (some "timeout")
        (some "spam") (some 5) true true none [] [] 1000).2.2.1 =
      [] ++
        [{ user_id := "u1", moderator_id := "m1", command_name := "timeout",
           reason := orElse (some "spam") "No reason provided",
           expires_at := punishExpiresAt (some 5) 1000, active := true,
           guild_id := none }] := by
  refine ⟨by decide, by decide, by decide, by decide, ?_⟩
  exact (gwApiPunish_expires_at_formula "g1" "u1" "m1" "timeout" (some "spam")
    (some 5) [] [] 1000 (by decide) (by decide) (by decide) (by decide)
    (Or.inr ⟨Or.inl (by decide), by decide⟩)).2.1

end MinApi
